import Mathlib

/-!
Verification development for the CalHack12.0 tutorial-generator repository.

The repository has two behavioural components:
* `server.js` (src/unnamed/part_000): an Express proxy with three endpoints,
  of which `POST /api/generate-tutorial` and `GET /api/list-models` carry the
  behavioural contract;
* `src/App.js`: a React client that submits a topic, calls the proxy, strips
  markdown code fences from the returned HTML and renders it.

The embedding below models JSON values (`JVal`), the relevant JavaScript
evaluation semantics (property access with `TypeError` on nullish receivers,
optional chaining, truthiness, `||` defaulting, string coercion), the two
proxy handlers as pure functions of the API-key configuration and a single
upstream-fetch outcome, and the submission state machine of the client.  Outbound
network calls are counted explicitly so that "exactly one call / no call" can
be stated.
-/

/-- JSON values, as produced by `JSON.parse` on the bodies exchanged between
the client, the proxy and the upstream API. -/
inductive JVal where
  | null
  | bool (b : Bool)
  | num (n : Int)
  | str (s : String)
  | arr (xs : List JVal)
  | obj (fs : List (String × JVal))

/-- First-match field lookup in a JSON object, mirroring JavaScript property
lookup on an object literal built from parsed JSON. -/
def lookupField : List (String × JVal) → String → Option JVal
  | [], _ => none
  | f :: fs, k => if f.1 == k then some f.2 else lookupField fs k

/-- A JavaScript value in an expression position: `none` stands for
`undefined`, `some v` for a defined JSON value (which may itself be `null`). -/
abbrev JsValue := Option JVal

/-- Nullish test (`undefined` or `null`), the condition optional chaining
`?.` short-circuits on. -/
def isNullish : JsValue → Bool
  | none => true
  | some .null => true
  | some _ => false

/-- JavaScript truthiness of a value, as used by the `||` operator.  `NaN` is
not representable in parsed-JSON values so `num` is falsy exactly at 0. -/
def jsTruthy : JsValue → Bool
  | none => false
  | some .null => false
  | some (.bool b) => b
  | some (.num n) => n != 0
  | some (.str s) => s != ""
  | some (.arr _) => true
  | some (.obj _) => true

/-- The JavaScript `x || d` defaulting pattern: the value itself when truthy,
otherwise the default. -/
def jsOr (v : JsValue) (dflt : JVal) : JVal :=
  if jsTruthy v then v.getD dflt else dflt

/-- Property access `v.k`: throws a `TypeError` when the receiver is nullish,
yields the field (or `undefined`) on an object, and `undefined` on any other
JSON value (primitives and arrays have none of the fields read here). -/
def jsGetProp : JsValue → String → Except String JsValue
  | none, _ => .error "TypeError: cannot read properties of undefined"
  | some .null, _ => .error "TypeError: cannot read properties of null"
  | some (.obj fs), k => .ok (lookupField fs k)
  | some _, _ => .ok none

/-- Index access `v[i]`: throws on a nullish receiver, yields the element (or
`undefined`) on an array, the `toString i` field on an object, and `undefined`
otherwise (string character indexing is never observed by this codebase: every
such access feeds an optional chain that treats the result uniformly). -/
def jsIndex : JsValue → Nat → Except String JsValue
  | none, _ => .error "TypeError: cannot read properties of undefined"
  | some .null, _ => .error "TypeError: cannot read properties of null"
  | some (.arr xs), i => .ok xs[i]?
  | some (.obj fs), i => .ok (lookupField fs (toString i))
  | some _, _ => .ok none

mutual

/-- JavaScript `String(v)` coercion, used by the `Error` constructor for its
message argument. -/
def jsStringCoerce : JVal → String
  | .str s => s
  | .null => "null"
  | .bool b => cond b "true" "false"
  | .num n => toString n
  | .obj _ => "[object Object]"
  | .arr xs => jsJoinComma xs

/-- Array-to-string coercion: comma-joined elements, with `null` elements
rendered as the empty string, as `Array.prototype.join` does. -/
def jsJoinComma : List JVal → String
  | [] => ""
  | [JVal.null] => ""
  | [x] => jsStringCoerce x
  | JVal.null :: x :: xs => "," ++ jsJoinComma (x :: xs)
  | x :: y :: xs => jsStringCoerce x ++ "," ++ jsJoinComma (y :: xs)

end

/-- Success test of the WHATWG fetch `Response.ok` flag: status in 200..299. -/
def successStatus (s : Nat) : Bool := 200 ≤ s && s ≤ 299

/-- Error-message defaulting `m || fallback` for a caught error whose
`message` is the string `m`: the server catch clause reports
`error.message || "Internal server error"`. -/
def orInternal (m : String) : String :=
  if m = "" then "Internal server error" else m

/-- Opening part of the prompt template in `server.js`, up to and including
the double quote in front of the interpolated topic `${request}`. -/
def promptHead : String :=
  "Create an easy-to-understand tutorial for: \""

/-- Rest of the prompt template after the closing double quote; the template
body following the interpolation hole. -/
def promptTailBody : String :=
  "\n\nFormat your response as clean HTML with:\n- A clear title using <h1>\n- Section headings using <h2> and <h3>\n- Step-by-step explanations in <p> tags\n- Code examples in <pre><code> blocks if relevant\n- Important points in <strong> or <em> tags\n- Lists using <ul> or <ol> when appropriate\n- Visual structure with proper spacing\n\nMake it beginner-friendly, clear, and engaging. Use simple language and include practical examples.\n\nReturn ONLY the HTML content without any preamble, markdown backticks, or explanations. Start directly with the HTML."

/-- The prompt the server interpolates the client-supplied topic into,
verbatim and unescaped, exactly as the template literal in `server.js`
lines 88-101 does. -/
def buildPrompt (topic : String) : String :=
  promptHead ++ topic ++ ("\"" ++ promptTailBody)

/-- Evaluation of `data.candidates[0]?.content?.parts[0]?.text` on the parsed
upstream success body, with JavaScript optional-chaining semantics: `[0]` on
a nullish `data.candidates` or on a nullish `parts` throws, while the `?.`
steps turn a nullish left-hand side into `undefined` for the whole rest of
the chain. -/
def extractTutorialText (data : JVal) : Except String JsValue :=
  match jsGetProp (some data) "candidates" with
  | .error m => .error m
  | .ok a =>
    match jsIndex a 0 with
    | .error m => .error m
    | .ok b =>
      if isNullish b then .ok none
      else
        match jsGetProp b "content" with
        | .error m => .error m
        | .ok c =>
          if isNullish c then .ok none
          else
            match jsGetProp c "parts" with
            | .error m => .error m
            | .ok d =>
              match jsIndex d 0 with
              | .error m => .error m
              | .ok e =>
                if isNullish e then .ok none
                else jsGetProp e "text"

/-- Evaluation of `errorData.error?.message` on the parsed upstream error
body: throws when `errorData` itself is `null`, short-circuits to `undefined`
when the `error` field is nullish. -/
def extractErrMessage (d : JVal) : Except String JsValue :=
  match jsGetProp (some d) "error" with
  | .error m => .error m
  | .ok e =>
    if isNullish e then .ok none
    else jsGetProp e "message"

/-- Outcome of the single `fetch` to the upstream generation endpoint, as the
handler observes it: either the fetch promise rejected (carrying the error
message), or a response arrived with a status code and with `response.json()`
either producing a parsed value or rejecting with a parse-error message. -/
inductive FetchOutcome where
  | throw (msg : String)
  | resp (status : Nat) (json : Except String JVal)

/-- Observable result of one proxy call: HTTP status, JSON body, how many
outbound upstream requests were issued while serving it, and the prompt text
sent upstream (when a request was issued at all). -/
structure GenResult where
  status : Nat
  body : JVal
  upstreamCalls : Nat
  outboundPrompt : Option String

/-- Status/body computation of `POST /api/generate-tutorial` once the single
upstream fetch has completed, following `server.js` lines 108-136: a rejected
fetch or a rejected `response.json()` or a `TypeError` during candidate
extraction lands in the catch clause (500 with `error.message`); a non-ok
response yields the upstream status with `errorData.error?.message` defaulted
to a generic message; an ok response yields 200 with the extracted candidate
text defaulted to the fixed fallback string. -/
def generateTutorialCore (upstream : FetchOutcome) : Nat × JVal :=
  match upstream with
  | .throw m => (500, .obj [("error", .str (orInternal m))])
  | .resp status json =>
    match json with
    | .error m => (500, .obj [("error", .str (orInternal m))])
    | .ok data =>
      if successStatus status then
        match extractTutorialText data with
        | .error m => (500, .obj [("error", .str (orInternal m))])
        | .ok v =>
          (200, .obj [("content", .arr [.obj [("type", .str "text"),
            ("text", jsOr v (.str "Sorry, could not generate tutorial."))]])])
      else
        match extractErrMessage data with
        | .error m => (500, .obj [("error", .str (orInternal m))])
        | .ok v =>
          (status, .obj [("error", jsOr v (.str "API request failed"))])

/-- The `POST /api/generate-tutorial` handler (`server.js` lines 62-137) as a
function of the configured API key, the client-supplied topic and the outcome
of the upstream fetch: with no key it answers 500 immediately and issues no
outbound request; otherwise it issues exactly one outbound request carrying
the interpolated prompt and maps the outcome through
`generateTutorialCore`. -/
def generateTutorialHandler (apiKey : Option String) (topic : String)
    (upstream : FetchOutcome) : GenResult :=
  match apiKey with
  | none =>
    ⟨500, .obj [("error",
      .str "API key not configured on server. Get a free key at: https://ai.google.dev")],
      0, none⟩
  | some _ =>
    ⟨(generateTutorialCore upstream).1, (generateTutorialCore upstream).2,
      1, some (buildPrompt topic)⟩

/-- Outcome of the single `fetch` in `GET /api/list-models`: a rejected fetch
(carrying `String(err)`), or a response whose body text was read and then fed
to `JSON.parse`, which either produced a value or failed. -/
inductive ListFetchOutcome where
  | throw (errText : String)
  | resp (status : Nat) (text : String) (parsed : Option JVal)

/-- Observable result of one `GET /api/list-models` call. -/
structure ListResult where
  status : Nat
  body : JVal
  upstreamCalls : Nat

/-- The `GET /api/list-models` handler (`server.js` lines 21-57): 500 with no
outbound call when the key is missing; otherwise one outbound call, passing a
parseable body through as parsed JSON (with the default 200 status of
`res.json`), wrapping an unparseable body as a `raw` object, and reporting a
rejected fetch as a 500. -/
def listModelsHandler (apiKey : Option String)
    (upstream : ListFetchOutcome) : ListResult :=
  match apiKey with
  | none => ⟨500, .obj [("error", .str "API key missing")], 0⟩
  | some _ =>
    match upstream with
    | .throw errText => ⟨500, .obj [("error", .str errText)], 1⟩
    | .resp _status text parsed =>
      match parsed with
      | some p => ⟨200, p, 1⟩
      | none => ⟨200, .obj [("raw", .str text)], 1⟩

/-- Whitespace set of JavaScript `String.prototype.trim` restricted to the
characters that can realistically occur here: ASCII whitespace plus NBSP. -/
def isJsWhite (c : Char) : Bool :=
  c == ' ' || c == '\t' || c == '\n' || c == '\r' || c == '\x0b' ||
    c == '\x0c' || c == ' '

/-- JavaScript `s.trim()`: drop leading and trailing whitespace. -/
def jsTrim (s : String) : String :=
  String.mk (((s.data.dropWhile isJsWhite).reverse.dropWhile isJsWhite).reverse)

/-- Fuel-driven scan implementing the global replacement
`replace(/```html\n?/g, "")`: at each position, a greedy match of
"```html" followed by an optional newline is deleted and scanning resumes
after it; otherwise the character is kept.  Fuel at least the length of the
input makes the scan total. -/
def stripHtmlFenceAux : Nat → List Char → List Char
  | 0, cs => cs
  | _ + 1, [] => []
  | fuel + 1, c :: cs =>
    if (c :: cs).take 8 = "```html\n".data then
      stripHtmlFenceAux fuel ((c :: cs).drop 8)
    else if (c :: cs).take 7 = "```html".data then
      stripHtmlFenceAux fuel ((c :: cs).drop 7)
    else c :: stripHtmlFenceAux fuel cs

/-- Fuel-driven scan implementing the global replacement
`replace(/```\n?/g, "")`, analogous to `stripHtmlFenceAux`. -/
def stripTickFenceAux : Nat → List Char → List Char
  | 0, cs => cs
  | _ + 1, [] => []
  | fuel + 1, c :: cs =>
    if (c :: cs).take 4 = "```\n".data then
      stripTickFenceAux fuel ((c :: cs).drop 4)
    else if (c :: cs).take 3 = "```".data then
      stripTickFenceAux fuel ((c :: cs).drop 3)
    else c :: stripTickFenceAux fuel cs

/-- The client clean-up of `App.js` line 55:
`htmlContent.replace(/```html\n?/g, "").replace(/```\n?/g, "").trim()`. -/
def stripFences (s : String) : String :=
  let l1 := stripHtmlFenceAux s.data.length s.data
  let l2 := stripTickFenceAux l1.length l1
  jsTrim (String.mk l2)

/-- The four pieces of React state of `AILearningTool` that carry behaviour:
the topic input, the rendered tutorial HTML, the loading flag, and the last
error message. -/
structure ClientState where
  request : String
  tutorial : String
  loading : Bool
  error : String

/-- Outcome of the client fetch to the proxy: a rejected fetch (carrying the
error message), or a response with a status together with the result of
`response.json()`. -/
inductive ClientFetchOutcome where
  | networkThrow (msg : String)
  | resp (status : Nat) (json : Except String JVal)

/-- The fixed fallback HTML the client substitutes when the proxy success
body has no text block (`App.js` line 50). -/
def clientFallback : String := "<p>Sorry, I could not generate a tutorial.</p>"

/-- Evaluation of `content.find(block => block.type === "text")`: walk the
array, answering the first element whose `type` property is exactly the
string "text"; reading `.type` off a `null` element throws inside the
callback. -/
def findTextBlock : List JVal → Except String JsValue
  | [] => .ok none
  | b :: bs =>
    match jsGetProp (some b) "type" with
    | .error m => .error m
    | .ok (some (.str t)) =>
      if t == "text" then .ok (some b) else findTextBlock bs
    | .ok _ => findTextBlock bs

/-- Evaluation of the client success path on the parsed proxy body
(`App.js` lines 50-55):
`data.content.find(block => block.type === "text")?.text || fallback`
followed by fence stripping and trimming.  `.find` called on anything but an
array throws; a non-string truthy `text` value would make `.replace` throw. -/
def clientExtractHtml (data : JVal) : Except String String :=
  match jsGetProp (some data) "content" with
  | .error m => .error m
  | .ok (some (.arr blocks)) =>
    match findTextBlock blocks with
    | .error m => .error m
    | .ok found =>
      match (match found with
             | none => Except.ok (none : JsValue)
             | some blk => jsGetProp (some blk) "text") with
      | .error m => .error m
      | .ok t =>
        match jsOr t (.str clientFallback) with
        | .str h => .ok (stripFences h)
        | _ => .error "TypeError: htmlContent.replace is not a function"
  | .ok _ => .error "TypeError: data.content.find is not a function"

/-- Message of the error thrown on a non-ok proxy response
(`App.js` line 47): `new Error(data.error || "Backend request failed")`,
whose message is the `String(..)` coercion of the argument; reading `.error`
off a `null` body itself throws first. -/
def backendErrorMsg (data : JVal) : Except String String :=
  match jsGetProp (some data) "error" with
  | .error m => .error m
  | .ok e => .ok (jsStringCoerce (jsOr e (.str "Backend request failed")))

/-- The client catch clause (`App.js` lines 58-64): format the inline error
string, render it as the tutorial HTML and record it as the error state. -/
def catchState (s : ClientState) (msg : String) : ClientState :=
  let em := "Error: " ++ msg ++ ". Check the browser console for details."
  { s with
    tutorial := "<p style=\"color: #ef4444;\">" ++ em ++ "</p>",
    error := em }

/-- One complete run of `generateTutorial` (`App.js` lines 21-68) given the
outcome of its single fetch, paired with the number of outbound calls: a
whitespace-only topic returns before any call; otherwise the loading flag is
set and the previous result and error are cleared, the try block parses the
response, throws on a non-ok status, extracts and cleans the HTML on success,
the catch clause renders any thrown message, and the finally clause clears
the loading flag once, on every path. -/
def runGenerateTutorial (s : ClientState) (o : ClientFetchOutcome) :
    ClientState × Nat :=
  if jsTrim s.request = "" then (s, 0)
  else
    let s1 : ClientState := { s with loading := true, tutorial := "", error := "" }
    let s2 : ClientState :=
      match o with
      | .networkThrow m => catchState s1 m
      | .resp status json =>
        match json with
        | .error m => catchState s1 m
        | .ok data =>
          if successStatus status then
            match clientExtractHtml data with
            | .ok html => { s1 with tutorial := html }
            | .error m => catchState s1 m
          else
            match backendErrorMsg data with
            | .ok m => catchState s1 m
            | .error m => catchState s1 m
    ({ s2 with loading := false }, 1)

/-- User interactions that can start a submission: clicking the Generate
button, or a key press in the topic input. -/
inductive UiEvent where
  | clickGenerate
  | keyDown (key : String)

/-- The synchronous opening of `generateTutorial`, up to the point where the
fetch is issued: a no-op on a whitespace-only topic, otherwise the loading
flag is set, the previous result and error are cleared, and one outbound
call starts. -/
def startGenerate (s : ClientState) : ClientState × Nat :=
  if jsTrim s.request = "" then (s, 0)
  else ({ s with loading := true, tutorial := "", error := "" }, 1)

/-- Dispatch of one user event against the current state, paired with the
number of outbound calls it starts: the button is disabled while loading or
while the trimmed topic is empty (`App.js` line 123), so a click then invokes
nothing; `handleKeyPress` (`App.js` lines 70-74) invokes `generateTutorial`
only for the Enter key while not loading. -/
def uiStep (s : ClientState) (e : UiEvent) : ClientState × Nat :=
  match e with
  | .clickGenerate =>
    if s.loading || jsTrim s.request == "" then (s, 0) else startGenerate s
  | .keyDown k =>
    if k == "Enter" && !s.loading then startGenerate s else (s, 0)

/-- Total description of JavaScript property access on a defined, non-null
value: the field on an object, `undefined` on anything else.  Used to state
properties of the handlers without exception plumbing. -/
def getPropD : JVal → String → Option JVal
  | .obj fs, k => lookupField fs k
  | _, _ => none

/-- Value of `errorData.error?.message` on a parsed (non-null) upstream error
body, described totally: `undefined` when the `error` field is absent or
nullish, otherwise its `message` field. -/
def errMsgOpt (d : JVal) : Option JVal :=
  match getPropD d "error" with
  | none => none
  | some .null => none
  | some e => getPropD e "message"

/-- Modelled from the spec: the human-readable message the proxy is said to
report for a parsed upstream error body — the upstream `error.message` when
present and truthy, otherwise the generic fallback "API request failed". -/
def upstreamErrorMessage (d : JVal) : JVal :=
  jsOr (errMsgOpt d) (.str "API request failed")

theorem jsGetProp_eq_getPropD (v : JVal) (h : v ≠ JVal.null) (k : String) :
    jsGetProp (some v) k = .ok (getPropD v k) := by
  cases v <;> simp_all [jsGetProp, getPropD]

theorem extractErrMessage_eq (d : JVal) (h : d ≠ JVal.null) :
    extractErrMessage d = .ok (errMsgOpt d) := by
  have hd := jsGetProp_eq_getPropD d h "error"
  rw [extractErrMessage, hd, errMsgOpt]
  cases hg : getPropD d "error" with
  | none => rfl
  | some e =>
    cases e with
    | null => rfl
    | bool b => simp [isNullish, jsGetProp, getPropD]
    | num n => simp [isNullish, jsGetProp, getPropD]
    | str s => simp [isNullish, jsGetProp, getPropD]
    | arr xs => simp [isNullish, jsGetProp, getPropD]
    | obj fs => simp [isNullish, jsGetProp, getPropD]

theorem findTextBlock_eq_none (blocks : List JVal)
    (h : ∀ b ∈ blocks, b ≠ JVal.null ∧ getPropD b "type" ≠ some (.str "text")) :
    findTextBlock blocks = .ok none := by
  induction blocks with
  | nil => rfl
  | cons b bs ih =>
    obtain ⟨hb, ht⟩ := h b (by simp)
    have hrest : ∀ x ∈ bs, x ≠ JVal.null ∧ getPropD x "type" ≠ some (.str "text") :=
      fun x hx => h x (by simp [hx])
    rw [findTextBlock, jsGetProp_eq_getPropD b hb]
    cases hg : getPropD b "type" with
    | none => exact ih hrest
    | some v =>
      cases v with
      | str t =>
        have hne : t ≠ "text" := by
          rintro rfl
          exact ht (by rw [hg])
        have hbeq : (t == "text") = false := by simp [hne]
        simp only [hbeq, if_false]
        exact ih hrest
      | null => exact ih hrest
      | bool b2 => exact ih hrest
      | num n => exact ih hrest
      | arr xs => exact ih hrest
      | obj fs => exact ih hrest

/-- C1 (counterexample): the claim states that for a non-success upstream
status the proxy response reuses the upstream status code, with a generic
fallback message when the upstream body is not parseable as structured data.
At upstream status 429 with an unparseable body, `response.json()` rejects
inside the try block, so the handler instead answers through its catch clause
with status 500, not 429. -/
theorem claim_C1_counterexample :
    (generateTutorialHandler (some "key") "cooking"
        (.resp 429 (.error "Unexpected token"))).status = 500 ∧
      (500 : Nat) ≠ 429 :=
  ⟨by decide, by decide⟩

/-- C1 (amended): if the upstream generation call returns a non-success
status and its body parses as JSON to a non-null value, the proxy response
has the upstream status code and its error field is the upstream
`error.message` when present and truthy, otherwise the generic fallback
"API request failed"; when the upstream body is not parseable as JSON, the
proxy instead responds 500 with the parse error message. -/
theorem claim_C1_upstream_error (k topic : String) (status : Nat) (d : JVal)
    (pm : String) (hnok : successStatus status = false) (hnn : d ≠ JVal.null) :
    (generateTutorialHandler (some k) topic (.resp status (.ok d))).status = status ∧
    (generateTutorialHandler (some k) topic (.resp status (.ok d))).body
      = .obj [("error", upstreamErrorMessage d)] ∧
    generateTutorialHandler (some k) topic (.resp status (.error pm))
      = ⟨500, .obj [("error", .str (orInternal pm))], 1, some (buildPrompt topic)⟩ := by
  refine ⟨?_, ?_, ?_⟩ <;>
    simp [generateTutorialHandler, generateTutorialCore, hnok,
      extractErrMessage_eq d hnn, upstreamErrorMessage]

theorem claim_C1_upstream_error_witness :
    successStatus 429 = false ∧
    JVal.obj [("error", JVal.obj [("message", JVal.str "Resource exhausted")])]
      ≠ JVal.null ∧
    ((generateTutorialHandler (some "key") "cooking"
        (.resp 429 (.ok (.obj [("error",
          .obj [("message", .str "Resource exhausted")])])))).status = 429 ∧
      (generateTutorialHandler (some "key") "cooking"
        (.resp 429 (.ok (.obj [("error",
          .obj [("message", .str "Resource exhausted")])])))).body
        = .obj [("error", upstreamErrorMessage
            (.obj [("error", .obj [("message", .str "Resource exhausted")])]))] ∧
      generateTutorialHandler (some "key") "cooking" (.resp 429 (.error "bad json"))
        = ⟨500, .obj [("error", .str (orInternal "bad json"))], 1,
            some (buildPrompt "cooking")⟩) :=
  ⟨by decide, fun h => JVal.noConfusion h,
    claim_C1_upstream_error "key" "cooking" 429
      (.obj [("error", .obj [("message", .str "Resource exhausted")])])
      "bad json" (by decide) (fun h => JVal.noConfusion h)⟩

/-- C2: if the upstream generation call succeeds with an ok status but the
response contains zero candidates, `POST /api/generate-tutorial` still
succeeds, answering 200 with a single text block whose text is the fixed
fallback string "Sorry, could not generate tutorial.". -/
theorem claim_C2_zero_candidates (k topic : String) (status : Nat)
    (rest : List (String × JVal)) (hok : successStatus status = true) :
    generateTutorialHandler (some k) topic
        (.resp status (.ok (.obj (("candidates", JVal.arr []) :: rest))))
      = ⟨200, .obj [("content", .arr [.obj [("type", .str "text"),
          ("text", .str "Sorry, could not generate tutorial.")]])],
         1, some (buildPrompt topic)⟩ := by
  simp [generateTutorialHandler, generateTutorialCore, hok, extractTutorialText,
    jsGetProp, jsIndex, lookupField, isNullish, jsOr, jsTruthy]

theorem claim_C2_zero_candidates_witness :
    successStatus 200 = true ∧
    generateTutorialHandler (some "key") "bread baking"
        (.resp 200 (.ok (.obj [("candidates", JVal.arr [])])))
      = ⟨200, .obj [("content", .arr [.obj [("type", .str "text"),
          ("text", .str "Sorry, could not generate tutorial.")]])],
         1, some (buildPrompt "bread baking")⟩ :=
  ⟨by decide, claim_C2_zero_candidates "key" "bread baking" 200 [] (by decide)⟩

/-- C3: for every non-empty topic string, a `POST /api/generate-tutorial`
call with a configured key issues exactly one outbound upstream request —
on every outcome, so no retry happens on any failure path — and on an ok
upstream response with extractable content it returns a body holding exactly
one content block of type "text". -/
theorem claim_C3_single_call (k topic : String) (u : FetchOutcome)
    (_hne : topic ≠ "") :
    (generateTutorialHandler (some k) topic u).upstreamCalls = 1 ∧
    (∀ status data v, u = .resp status (.ok data) →
        successStatus status = true →
        extractTutorialText data = .ok v →
        (generateTutorialHandler (some k) topic u).body
          = .obj [("content", .arr [.obj [("type", .str "text"),
              ("text", jsOr v (.str "Sorry, could not generate tutorial."))]])]) := by
  refine ⟨rfl, ?_⟩
  rintro status data v rfl hok hex
  simp [generateTutorialHandler, generateTutorialCore, hok, hex]

theorem claim_C3_single_call_witness :
    ("lean" : String) ≠ "" ∧
    ((generateTutorialHandler (some "key") "lean"
          (.resp 200 (.ok (.obj [("candidates", JVal.arr [])])))).upstreamCalls = 1 ∧
      (∀ status data v,
          FetchOutcome.resp 200 (.ok (.obj [("candidates", JVal.arr [])]))
            = .resp status (.ok data) →
          successStatus status = true →
          extractTutorialText data = .ok v →
          (generateTutorialHandler (some "key") "lean"
              (.resp 200 (.ok (.obj [("candidates", JVal.arr [])])))).body
            = .obj [("content", .arr [.obj [("type", .str "text"),
                ("text", jsOr v (.str "Sorry, could not generate tutorial."))]])])) :=
  ⟨by decide, claim_C3_single_call "key" "lean" _ (by decide)⟩

/-- C4: with no `GEMINI_API_KEY` configured, both `POST /api/generate-tutorial`
and `GET /api/list-models` answer 500 with an error message and issue zero
outbound requests, on every topic and every would-be upstream outcome. -/
theorem claim_C4_missing_key :
    (∀ (topic : String) (u : FetchOutcome),
        generateTutorialHandler none topic u
          = ⟨500, .obj [("error",
              .str "API key not configured on server. Get a free key at: https://ai.google.dev")],
             0, none⟩) ∧
    (∀ u : ListFetchOutcome,
        listModelsHandler none u
          = ⟨500, .obj [("error", .str "API key missing")], 0⟩) :=
  ⟨fun _ _ => rfl, fun _ => rfl⟩

/-- C5: on a success response whose text block carries
"```html\n<h1>X</h1>\n```", the client renders exactly "<h1>X</h1>": both
fence delimiters are stripped and the surrounding whitespace is trimmed. -/
theorem claim_C5_fence_round_trip :
    (runGenerateTutorial ⟨"how to start with X", "", false, ""⟩
        (.resp 200 (.ok (.obj [("content", .arr [.obj [("type", .str "text"),
          ("text", .str "```html\n<h1>X</h1>\n```")]])])))).1.tutorial
      = "<h1>X</h1>" := by decide

/-- C6: submission is a no-op on an empty or whitespace-only topic, and
while a call is in flight a further user-triggered submission (button click
or Enter key) starts no additional outbound call: two submissions, the
second issued while the first is still loading, start exactly one call. -/
theorem claim_C6_single_flight (s : ClientState) (e1 e2 : UiEvent)
    (h1 : s.loading = false) (h2 : jsTrim s.request ≠ "")
    (hsub : e1 = UiEvent.clickGenerate ∨ e1 = UiEvent.keyDown "Enter") :
    ((uiStep s e1).2 = 1 ∧ (uiStep (uiStep s e1).1 e2).2 = 0 ∧
      (uiStep s e1).2 + (uiStep (uiStep s e1).1 e2).2 = 1) ∧
    (∀ (t : ClientState) (e : UiEvent), jsTrim t.request = "" →
        uiStep t e = (t, 0)) := by
  have hreqb : (jsTrim s.request == "") = false := by simp [h2]
  have hstep : uiStep s e1
      = ({ s with loading := true, tutorial := "", error := "" }, 1) := by
    rcases hsub with rfl | rfl
    · simp [uiStep, startGenerate, h1, hreqb, h2]
    · simp [uiStep, startGenerate, h1, hreqb, h2]
  have hsecond : (uiStep (uiStep s e1).1 e2).2 = 0 := by
    rw [hstep]
    cases e2 with
    | clickGenerate => simp [uiStep]
    | keyDown k => simp [uiStep]
  refine ⟨⟨by rw [hstep], hsecond, by rw [hstep] at hsecond ⊢; rw [hsecond]⟩, ?_⟩
  intro t e ht
  have htb : (jsTrim t.request == "") = true := by simp [ht]
  cases e with
  | clickGenerate => simp [uiStep, htb]
  | keyDown k => simp [uiStep, startGenerate, ht]

theorem claim_C6_single_flight_witness :
    (⟨"sourdough", "", false, ""⟩ : ClientState).loading = false ∧
    jsTrim (⟨"sourdough", "", false, ""⟩ : ClientState).request ≠ "" ∧
    (UiEvent.clickGenerate = UiEvent.clickGenerate ∨
      UiEvent.clickGenerate = UiEvent.keyDown "Enter") ∧
    (((uiStep ⟨"sourdough", "", false, ""⟩ UiEvent.clickGenerate).2 = 1 ∧
        (uiStep (uiStep ⟨"sourdough", "", false, ""⟩ UiEvent.clickGenerate).1
          (UiEvent.keyDown "Enter")).2 = 0 ∧
        (uiStep ⟨"sourdough", "", false, ""⟩ UiEvent.clickGenerate).2 +
          (uiStep (uiStep ⟨"sourdough", "", false, ""⟩ UiEvent.clickGenerate).1
            (UiEvent.keyDown "Enter")).2 = 1) ∧
      (∀ (t : ClientState) (e : UiEvent), jsTrim t.request = "" →
          uiStep t e = (t, 0))) :=
  ⟨rfl, by decide, Or.inl rfl,
    claim_C6_single_flight ⟨"sourdough", "", false, ""⟩ UiEvent.clickGenerate
      (UiEvent.keyDown "Enter") rfl (by decide) (Or.inl rfl)⟩

/-- C7: for every completed submission with a non-blank topic, on the success
path and on every failure path, the loading flag is false after completion;
the model clears it in one place, after the try/catch, mirroring the single
finally clause of the source. -/
theorem claim_C7_loading_cleared (s : ClientState) (o : ClientFetchOutcome)
    (h : jsTrim s.request ≠ "") :
    ((runGenerateTutorial s o).1).loading = false := by
  simp [runGenerateTutorial, h]

theorem claim_C7_loading_cleared_witness :
    jsTrim (⟨"lean", "", false, ""⟩ : ClientState).request ≠ "" ∧
    ((runGenerateTutorial ⟨"lean", "", false, ""⟩
        (.networkThrow "connection refused")).1).loading = false :=
  ⟨by decide,
    claim_C7_loading_cleared ⟨"lean", "", false, ""⟩
      (.networkThrow "connection refused") (by decide)⟩

/-- C8: when the proxy call succeeds with an ok status but the returned
content sequence has no block of type "text" (each block a non-null JSON
value), the client substitutes the fixed fallback message and still renders:
the tutorial equals the fallback, is non-empty (so the tutorial panel shows),
and no error is recorded. -/
theorem claim_C8_no_text_block (s : ClientState) (status : Nat)
    (blocks : List JVal) (rest : List (String × JVal))
    (hreq : jsTrim s.request ≠ "") (hok : successStatus status = true)
    (hblocks : ∀ b ∈ blocks,
        b ≠ JVal.null ∧ getPropD b "type" ≠ some (.str "text")) :
    ((runGenerateTutorial s
        (.resp status (.ok (.obj (("content", .arr blocks) :: rest))))).1).tutorial
        = clientFallback ∧
      ((runGenerateTutorial s
        (.resp status (.ok (.obj (("content", .arr blocks) :: rest))))).1).tutorial
        ≠ "" ∧
      ((runGenerateTutorial s
        (.resp status (.ok (.obj (("content", .arr blocks) :: rest))))).1).error
        = "" := by
  have hfind := findTextBlock_eq_none blocks hblocks
  have hstrip : stripFences clientFallback = clientFallback := by decide
  have hext : clientExtractHtml (.obj (("content", .arr blocks) :: rest))
      = .ok clientFallback := by
    simp [clientExtractHtml, jsGetProp, lookupField, hfind, jsOr, jsTruthy, hstrip]
  have hrun : (runGenerateTutorial s
      (.resp status (.ok (.obj (("content", .arr blocks) :: rest))))).1
      = { request := s.request, tutorial := clientFallback,
          loading := false, error := "" } := by
    simp [runGenerateTutorial, hreq, hok, hext]
  rw [hrun]
  refine ⟨rfl, ?_, rfl⟩
  show clientFallback ≠ ""
  decide

theorem claim_C8_no_text_block_witness :
    jsTrim (⟨"cats", "", false, ""⟩ : ClientState).request ≠ "" ∧
    successStatus 200 = true ∧
    (∀ b ∈ [JVal.obj [("type", JVal.str "image")]],
        b ≠ JVal.null ∧ getPropD b "type" ≠ some (.str "text")) ∧
    (((runGenerateTutorial (⟨"cats", "", false, ""⟩ : ClientState)
        (.resp 200 (.ok (.obj (("content",
          .arr [JVal.obj [("type", JVal.str "image")]]) :: []))))).1).tutorial
        = clientFallback ∧
      ((runGenerateTutorial (⟨"cats", "", false, ""⟩ : ClientState)
        (.resp 200 (.ok (.obj (("content",
          .arr [JVal.obj [("type", JVal.str "image")]]) :: []))))).1).tutorial
        ≠ "" ∧
      ((runGenerateTutorial (⟨"cats", "", false, ""⟩ : ClientState)
        (.resp 200 (.ok (.obj (("content",
          .arr [JVal.obj [("type", JVal.str "image")]]) :: []))))).1).error
        = "") :=
  ⟨by decide, by decide,
    by
      intro b hb
      simp only [List.mem_singleton] at hb
      subst hb
      exact ⟨fun h => JVal.noConfusion h, by simp [getPropD, lookupField]⟩,
    claim_C8_no_text_block (⟨"cats", "", false, ""⟩ : ClientState) 200
      [JVal.obj [("type", JVal.str "image")]] [] (by decide) (by decide)
      (by
        intro b hb
        simp only [List.mem_singleton] at hb
        subst hb
        exact ⟨fun h => JVal.noConfusion h, by simp [getPropD, lookupField]⟩)⟩

/-- C9: `GET /api/list-models` with a configured key passes a parseable
upstream body through as the parsed JSON value, and wraps an unparseable
body as a raw-text object, both as a successful 200 response issued after
exactly one outbound call. -/
theorem claim_C9_list_models_passthrough (k : String) (status : Nat)
    (text : String) (p : JVal) :
    listModelsHandler (some k) (.resp status text (some p)) = ⟨200, p, 1⟩ ∧
    listModelsHandler (some k) (.resp status text none)
      = ⟨200, .obj [("raw", .str text)], 1⟩ :=
  ⟨rfl, rfl⟩

/-- C10: the outbound generation request always carries the prompt built from
the client-supplied topic, and for every topic string the prompt contains the
topic verbatim between double quotes — no escaping, filtering or truncation
is applied to it. -/
theorem claim_C10_verbatim_topic (k topic : String) (u : FetchOutcome) :
    (generateTutorialHandler (some k) topic u).outboundPrompt
      = some (buildPrompt topic) ∧
    ∃ pre post, buildPrompt topic = pre ++ "\"" ++ topic ++ "\"" ++ post := by
  refine ⟨rfl, "Create an easy-to-understand tutorial for: ", promptTailBody, ?_⟩
  show promptHead ++ topic ++ ("\"" ++ promptTailBody) = _
  have hh : promptHead = "Create an easy-to-understand tutorial for: " ++ "\"" := by
    decide
  rw [hh, ← String.append_assoc]
